import Mathlib

/-!
Verification of the OpenAI model adapter (`src/agent_poc/openai_client.py`).

The adapter translates host-agnostic messages into the OpenAI chat-completion
request shape, and translates batch responses / streaming chunks back into the
host runtime's generic shapes.  The Python code is duck-typed; the shallow
embedding below fixes the value domains the adapter actually inspects:

* a message is either an object exposing `role`/`content` attributes, a dict
  with `role`/`content` keys, or something else (coerced via `str(msg)`;
  the coerced value carries its string conversion);
* message content is either a plain string or a list of content blocks;
* a content block is either an object exposing a `text` attribute (also
  carrying its `str()` conversion, which the dict-message path uses), a dict
  (an insertion-ordered association list, lookup = first match, setting an
  absent key appends at the end), or something else carrying its `str()`.

Python exceptions (the `content_blocks[0]['text']` KeyError path and the
`response.choices[0]` IndexError path) are modelled as `Option`/`none`.
In-place mutation of caller-supplied dicts is modelled by state passing:
the `St` variants return both the emitted request entries and the
post-call state of the caller's message list.
-/

namespace OpenAIClient

/-- A content block as the adapter sees it: an object with a `text`
attribute (with `rep` its Python string conversion), a dict, or an
arbitrary value carrying its string conversion. -/
inductive Block where
  | attrText (text : String) (rep : String)
  | bdict (entries : List (String × String))
  | other (rep : String)
deriving DecidableEq, Repr

/-- First-match lookup in a dict's entry list (Python `d.get(k)` / `k in d`). -/
def dictGet (es : List (String × String)) (k : String) : Option String :=
  match es with
  | [] => none
  | (k', v) :: rest => if k' = k then some v else dictGet rest k

/-- Python `d[k] = v` when `k` is absent: insertion order appends at the end. -/
def dictSetNew (es : List (String × String)) (k v : String) : List (String × String) :=
  es ++ [(k, v)]

/-- `.get` on a normalized block (always a dict at the call sites). -/
def blockGet (b : Block) (k : String) : Option String :=
  match b with
  | .bdict es => dictGet es k
  | _ => none

/-- Message content: a plain string or an ordered list of content blocks. -/
inductive Content where
  | str (s : String)
  | blocks (bs : List Block)
deriving DecidableEq, Repr

/-- A caller-supplied message: object with `role`/`content` attributes,
dict with `role`/`content` keys, or an arbitrary value carrying its
string conversion. -/
inductive Msg where
  | obj (role : String) (content : Content)
  | mdict (role : String) (content : Content)
  | other (rep : String)
deriving DecidableEq, Repr

/-- One entry of the request message list sent to the backend. -/
structure OutMsg where
  role : String
  content : Content
deriving DecidableEq, Repr

/-- `OpenAIModel._format_messages` on one message: dicts pass through,
objects with `role`/`content` are flattened, anything else is coerced to a
user-role message holding its string conversion. -/
def formatOne (msg : Msg) : OutMsg :=
  match msg with
  | .mdict r c => ⟨r, c⟩
  | .obj r c => ⟨r, c⟩
  | .other rep => ⟨"user", .str rep⟩

/-- `OpenAIModel._format_messages`: the request list built by `generate`. -/
def format_messages (messages : List Msg) : List OutMsg :=
  messages.map formatOne

/-- Block normalization in the object-message branch of
`_format_messages_with_system`: a block exposing `text` becomes
`{type: "text", text: ...}`; a dict missing `type` but containing `text`
gets `type: "text"` inserted (in place, at the end); any other value is
coerced to a text block holding its string conversion. -/
def normBlockObj (b : Block) : Block :=
  match b with
  | .attrText t _ => .bdict [("type", "text"), ("text", t)]
  | .bdict es =>
      if dictGet es "type" = none ∧ (dictGet es "text").isSome then
        .bdict (dictSetNew es "type" "text")
      else
        .bdict es
  | .other rep => .bdict [("type", "text"), ("text", rep)]

/-- Block normalization in the dict-message branch: dict blocks are handled
as in the object branch, but any non-dict block (including one exposing a
`text` attribute) is coerced via its string conversion. -/
def normBlockDict (b : Block) : Block :=
  match b with
  | .bdict es =>
      if dictGet es "type" = none ∧ (dictGet es "text").isSome then
        .bdict (dictSetNew es "type" "text")
      else
        .bdict es
  | .attrText _ rep => .bdict [("type", "text"), ("text", rep)]
  | .other rep => .bdict [("type", "text"), ("text", rep)]

/-- Post-call state of a block inside an object message: dict blocks are
mutated in place by the normalization (the normalized list holds the very
same dict), other block objects are left untouched (fresh dicts are built
for them). -/
def objBlockAfter (b : Block) : Block :=
  match b with
  | .bdict _ => normBlockObj b
  | _ => b

/-- One step of `OpenAIModel._format_messages_with_system`: the emitted
request entry paired with the post-call state of the caller's message.
`none` models the `content_blocks[0]['text']` KeyError raised when a lone
block is tagged `type: "text"` but has no `text` key. -/
def formatOneWS (msg : Msg) : Option (OutMsg × Msg) :=
  match msg with
  | .obj r (.blocks bs) =>
      let cbs := bs.map normBlockObj
      let post := Msg.obj r (.blocks (bs.map objBlockAfter))
      match cbs with
      | [b] =>
          if blockGet b "type" = some "text" then
            match blockGet b "text" with
            | some t => some (⟨r, .str t⟩, post)
            | none => none
          else
            some (⟨r, .blocks cbs⟩, post)
      | _ => some (⟨r, .blocks cbs⟩, post)
  | .obj r (.str s) => some (⟨r, .str s⟩, .obj r (.str s))
  | .mdict r (.blocks bs) =>
      let cbs := bs.map normBlockDict
      some (⟨r, .blocks cbs⟩, .mdict r (.blocks cbs))
  | .mdict r (.str s) => some (⟨r, .str s⟩, .mdict r (.str s))
  | .other rep => some (⟨"user", .str rep⟩, .other rep)

/-- The synthetic system message prepended when the prompt is truthy
(Python `if system_prompt:`: `None` and the empty string are falsy). -/
def sysPart (system_prompt : Option String) : List OutMsg :=
  match system_prompt with
  | some s => if s = "" then [] else [⟨"system", .str s⟩]
  | none => []

/-- The per-message loop of `_format_messages_with_system`, with state:
emitted entries paired with the post-call state of the caller's list. -/
def formatLoopWS : List Msg → Option (List OutMsg × List Msg)
  | [] => some ([], [])
  | m :: ms => do
      let (o, m') ← formatOneWS m
      let (os, ms') ← formatLoopWS ms
      return (o :: os, m' :: ms')

/-- `OpenAIModel._format_messages_with_system`, with state: the built
request list (system message first when the prompt is truthy) paired with
the post-call state of the caller's message list. -/
def format_messages_with_systemSt (messages : List Msg)
    (system_prompt : Option String) : Option (List OutMsg × List Msg) :=
  (formatLoopWS messages).map fun p => (sysPart system_prompt ++ p.1, p.2)

/-- The request list built by `_format_messages_with_system` (output only). -/
def format_messages_with_system (messages : List Msg)
    (system_prompt : Option String) : Option (List OutMsg) :=
  (format_messages_with_systemSt messages system_prompt).map Prod.fst

/-- The `message` field of a non-streaming response choice: `content` is
`Optional[str]` on the wire. -/
structure RespMessage where
  content : Option String
deriving DecidableEq, Repr

/-- One choice of a non-streaming chat-completion response. -/
structure RespChoice where
  message : RespMessage
deriving DecidableEq, Repr

/-- A non-streaming chat-completion response. -/
structure Response where
  choices : List RespChoice
deriving DecidableEq, Repr

/-- `OpenAIModel.generate`, as a function of the backend's response: reads
`response.choices[0].message.content` (`none` models the IndexError on an
empty choices list) and returns `str(content) if content else ""` — the raw
string when truthy, the empty string when the content is `None` or empty. -/
def generate (messages : List Msg) (response : Response) : Option String :=
  let _formatted := format_messages messages
  match response.choices with
  | [] => none
  | c :: _ =>
      some (match c.message.content with
        | some s => if s = "" then "" else s
        | none => "")

/-- The delta of a streaming chunk choice: `content` is `Optional[str]`. -/
structure ChunkDelta where
  content : Option String
deriving DecidableEq, Repr

/-- One choice of a streaming chunk.  `finish_reason` is present on the
wire but never read by the adapter. -/
structure ChunkChoice where
  delta : ChunkDelta
  finish_reason : Option String
deriving DecidableEq, Repr

/-- A chunk yielded by the backend stream: either an object without a
`choices` attribute, or one carrying a (possibly empty) choices list. -/
inductive Chunk where
  | noChoices
  | chunk (choices : List ChunkChoice)
deriving DecidableEq, Repr

/-- The generic stream events yielded by `OpenAIModel.stream`. -/
inductive StreamEvent where
  | messageStart (role : String)
  | contentBlockStart (contentBlockIndex : Nat)
  | contentBlockDelta (text : String) (contentBlockIndex : Nat)
  | contentBlockStop (contentBlockIndex : Nat)
  | messageStop (stopReason : String)
deriving DecidableEq, Repr

/-- The events yielded for one backend chunk: a single text delta when the
chunk has a nonempty `choices` whose first delta content is truthy
(`hasattr(chunk, 'choices') and chunk.choices and
chunk.choices[0].delta.content`), nothing otherwise. -/
def chunkEvents (c : Chunk) : List StreamEvent :=
  match c with
  | .noChoices => []
  | .chunk [] => []
  | .chunk (ch :: _) =>
      match ch.delta.content with
      | some t => if t = "" then [] else [.contentBlockDelta t 0]
      | none => []

/-- `OpenAIModel.stream`: formats the request (a formatting KeyError, i.e.
`none`, aborts before any event), then yields message-start,
content-block-start, the per-chunk delta events, content-block-stop, and
message-stop with stop reason `end_turn`. -/
def stream (messages : List Msg) (system_prompt : Option String)
    (chunks : List Chunk) : Option (List StreamEvent) :=
  (format_messages_with_systemSt messages system_prompt).map fun _ =>
    [.messageStart "assistant", .contentBlockStart 0]
      ++ chunks.flatMap chunkEvents
      ++ [.contentBlockStop 0, .messageStop "end_turn"]

/-- `OpenAIModel.structured_output`: formats the messages with the system
prompt (for the side of the call only — the result is unused), invokes the
non-streaming `generate` path, and wraps the text in the single-key mapping
`{"response": text}`.  The `schema` argument is never consulted. -/
def structured_output (messages : List Msg) (schema : List (String × String))
    (system_prompt : Option String) (response : Response) :
    Option (List (String × String)) := do
  let _formatted ← format_messages_with_systemSt messages system_prompt
  let response_text ← generate messages response
  return [("response", response_text)]

/-- The OpenAI section of the settings (`OpenAIConfig`): the credential is
optional, the rest has defaults. -/
structure OpenAIConfig where
  openai_api_key : Option String
  openai_model : String
  openai_max_tokens : Int
  openai_temperature : Rat
deriving DecidableEq, Repr

/-- The state held by a constructed `OpenAIModel` adapter. -/
structure OpenAIModelState where
  model_name : String
  temperature : Rat
  max_tokens : Int
  api_key : String
deriving DecidableEq, Repr

/-- `create_openai_model`: raises `ValueError` (modelled as `.error`) when
the configured API key is falsy (`None` or empty); otherwise constructs the
adapter from the configuration. -/
def create_openai_model (cfg : OpenAIConfig) : Except String OpenAIModelState :=
  match cfg.openai_api_key with
  | none =>
      .error "OpenAI API key is required. Please set OPENAI_API_KEY in your .env file or environment variables."
  | some k =>
      if k = "" then
        .error "OpenAI API key is required. Please set OPENAI_API_KEY in your .env file or environment variables."
      else
        .ok ⟨cfg.openai_model, cfg.openai_temperature, cfg.openai_max_tokens, k⟩

/-- The events yielded for a single chunk are a (possibly empty) run of
text deltas at content-block index 0. -/
theorem chunkEvents_shape (c : Chunk) :
    ∃ ts : List String,
      chunkEvents c = ts.map (fun t => StreamEvent.contentBlockDelta t 0) := by
  cases c with
  | noChoices => exact ⟨[], rfl⟩
  | chunk cs =>
      cases cs with
      | nil => exact ⟨[], rfl⟩
      | cons ch rest =>
          cases h : ch.delta.content with
          | none => exact ⟨[], by simp [chunkEvents, h]⟩
          | some t =>
              by_cases ht : t = ""
              · exact ⟨[], by simp [chunkEvents, h, ht]⟩
              · exact ⟨[t], by simp [chunkEvents, h, ht]⟩

/-- The middle of the stream is a run of text deltas at index 0. -/
theorem flatMap_chunkEvents_shape (chunks : List Chunk) :
    ∃ ts : List String,
      chunks.flatMap chunkEvents = ts.map (fun t => StreamEvent.contentBlockDelta t 0) := by
  induction chunks with
  | nil => exact ⟨[], rfl⟩
  | cons c cs ih =>
      obtain ⟨ts, hts⟩ := chunkEvents_shape c
      obtain ⟨ts', hts'⟩ := ih
      refine ⟨ts ++ ts', ?_⟩
      simp [List.flatMap_cons, hts, hts']

/-- C1: For every streaming call (whose request formatting succeeds),
whatever chunk sequence the backend yields — including none — the emitted
events are exactly one message-start, one content-block-start, zero or more
content-block-delta events, one content-block-stop and one message-stop, in
that order, with every content-block event at contentBlockIndex 0. -/
theorem stream_event_order (messages : List Msg) (system_prompt : Option String)
    (chunks : List Chunk)
    (h : (format_messages_with_systemSt messages system_prompt).isSome) :
    ∃ ts : List String,
      stream messages system_prompt chunks =
        some ([StreamEvent.messageStart "assistant", StreamEvent.contentBlockStart 0]
          ++ ts.map (fun t => StreamEvent.contentBlockDelta t 0)
          ++ [StreamEvent.contentBlockStop 0, StreamEvent.messageStop "end_turn"]) := by
  obtain ⟨p, hp⟩ := Option.isSome_iff_exists.mp h
  obtain ⟨ts, hts⟩ := flatMap_chunkEvents_shape chunks
  exact ⟨ts, by simp [stream, hp, hts]⟩

/-- Witness for C1: a concrete two-chunk stream (one text delta, one
content-free chunk) emits the five-stage sequence with a single delta. -/
theorem stream_event_order_witness :
    ∃ ts : List String,
      stream [Msg.mdict "user" (Content.str "hi")] (some "sys")
          [Chunk.chunk [⟨⟨some "Hello"⟩, none⟩], Chunk.chunk [⟨⟨none⟩, some "stop"⟩]] =
        some ([StreamEvent.messageStart "assistant", StreamEvent.contentBlockStart 0]
          ++ ts.map (fun t => StreamEvent.contentBlockDelta t 0)
          ++ [StreamEvent.contentBlockStop 0, StreamEvent.messageStop "end_turn"]) :=
  stream_event_order [Msg.mdict "user" (Content.str "hi")] (some "sys")
    [Chunk.chunk [⟨⟨some "Hello"⟩, none⟩], Chunk.chunk [⟨⟨none⟩, some "stop"⟩]]
    (by decide)

/-- C10: Every successful streaming call ends with a message-stop event
whose stop reason is `end_turn`, and no other stop reason ever appears —
whatever the chunks' `finish_reason` fields said. -/
theorem stream_stop_reason_always_end_turn (messages : List Msg)
    (system_prompt : Option String) (chunks : List Chunk)
    (evs : List StreamEvent)
    (h : stream messages system_prompt chunks = some evs) :
    evs.getLast? = some (StreamEvent.messageStop "end_turn") ∧
    ∀ r, StreamEvent.messageStop r ∈ evs → r = "end_turn" := by
  have h2 : (format_messages_with_systemSt messages system_prompt).isSome := by
    cases hf : format_messages_with_systemSt messages system_prompt with
    | none => simp [stream, hf] at h
    | some p => rfl
  obtain ⟨p, hp⟩ := Option.isSome_iff_exists.mp h2
  obtain ⟨ts, hts⟩ := flatMap_chunkEvents_shape chunks
  have hevs : evs =
      [StreamEvent.messageStart "assistant", StreamEvent.contentBlockStart 0]
        ++ ts.map (fun t => StreamEvent.contentBlockDelta t 0)
        ++ [StreamEvent.contentBlockStop 0, StreamEvent.messageStop "end_turn"] := by
    have := h
    simp [stream, hp, hts] at this
    exact this.symm
  subst hevs
  constructor
  · rw [show [StreamEvent.messageStart "assistant", StreamEvent.contentBlockStart 0]
        ++ ts.map (fun t => StreamEvent.contentBlockDelta t 0)
        ++ [StreamEvent.contentBlockStop 0, StreamEvent.messageStop "end_turn"] =
        (([StreamEvent.messageStart "assistant", StreamEvent.contentBlockStart 0]
          ++ ts.map (fun t => StreamEvent.contentBlockDelta t 0)
          ++ [StreamEvent.contentBlockStop 0]) ++ [StreamEvent.messageStop "end_turn"]) by simp]
    exact List.getLast?_concat _
  · intro r hr
    simp at hr
    exact hr

/-- Witness for C10: a stream truncated by the backend
(`finish_reason = "length"`) is still reported as `end_turn`. -/
theorem stream_stop_reason_always_end_turn_witness :
    ([StreamEvent.messageStart "assistant", StreamEvent.contentBlockStart 0,
      StreamEvent.contentBlockDelta "Hel" 0,
      StreamEvent.contentBlockStop 0,
      StreamEvent.messageStop "end_turn"] : List StreamEvent).getLast? =
      some (StreamEvent.messageStop "end_turn") ∧
    ∀ r, StreamEvent.messageStop r ∈
        ([StreamEvent.messageStart "assistant", StreamEvent.contentBlockStart 0,
          StreamEvent.contentBlockDelta "Hel" 0,
          StreamEvent.contentBlockStop 0,
          StreamEvent.messageStop "end_turn"] : List StreamEvent) → r = "end_turn" :=
  stream_stop_reason_always_end_turn [] none
    [Chunk.chunk [⟨⟨some "Hel"⟩, some "length"⟩]] _ (by decide)

/-- C2: `generate` returns the string content of the first returned choice,
and the empty string whenever that content is absent (`None`) or empty. -/
theorem generate_first_choice_content (messages : List Msg) (response : Response)
    (c : RespChoice) (rest : List RespChoice)
    (h : response.choices = c :: rest) :
    generate messages response = some ((c.message.content).getD "") ∧
    ((c.message.content = none ∨ c.message.content = some "") →
      generate messages response = some "") := by
  constructor
  · cases hc : c.message.content with
    | none => simp [generate, h, hc]
    | some s =>
        by_cases hs : s = "" <;> simp [generate, h, hc, hs]
  · intro habs
    rcases habs with hc | hc <;> simp [generate, h, hc]

/-- Witness for C2: a one-choice response with content `None` yields the
empty string. -/
theorem generate_first_choice_content_witness :
    generate [] ⟨[⟨⟨none⟩⟩]⟩ = some ((Option.none (α := String)).getD "") :=
  (generate_first_choice_content [] ⟨[⟨⟨none⟩⟩]⟩ ⟨⟨none⟩⟩ [] rfl).1

/-- C4: constructing the adapter from a configuration whose API key is
absent (`None` or empty) yields the `ValueError`, and no adapter instance
is ever produced. -/
theorem create_openai_model_missing_key (cfg : OpenAIConfig)
    (h : cfg.openai_api_key = none ∨ cfg.openai_api_key = some "") :
    create_openai_model cfg =
      .error "OpenAI API key is required. Please set OPENAI_API_KEY in your .env file or environment variables." ∧
    ∀ m : OpenAIModelState, create_openai_model cfg ≠ .ok m := by
  have herr : create_openai_model cfg =
      .error "OpenAI API key is required. Please set OPENAI_API_KEY in your .env file or environment variables." := by
    rcases h with h | h <;> simp [create_openai_model, h]
  exact ⟨herr, fun m hm => by simp [herr] at hm⟩

/-- Witness for C4: the default configuration (no key set) fails to
construct. -/
theorem create_openai_model_missing_key_witness :
    create_openai_model ⟨none, "gpt-4o", 4096, (7 : Rat) / 10⟩ =
      .error "OpenAI API key is required. Please set OPENAI_API_KEY in your .env file or environment variables." :=
  (create_openai_model_missing_key ⟨none, "gpt-4o", 4096, (7 : Rat) / 10⟩
    (Or.inl rfl)).1

/-- C5: on message lists whose entries all carry scalar string content
(dict- or object-shaped), the request list built via `_format_messages`
has the same length, and each entry keeps the role and content of the
corresponding input message. -/
theorem format_messages_scalar_passthrough (messages : List Msg)
    (hall : ∀ m ∈ messages,
      (∃ r s, m = Msg.obj r (Content.str s)) ∨ (∃ r s, m = Msg.mdict r (Content.str s))) :
    (format_messages messages).length = messages.length ∧
    ∀ (i : Nat) (hi : i < messages.length) (hi2 : i < (format_messages messages).length)
      (r s : String),
      (messages.get ⟨i, hi⟩ = Msg.obj r (Content.str s) ∨
        messages.get ⟨i, hi⟩ = Msg.mdict r (Content.str s)) →
      (format_messages messages).get ⟨i, hi2⟩ = ⟨r, Content.str s⟩ := by
  constructor
  · simp [format_messages]
  · intro i hi hi2 r s hshape
    have hget : (format_messages messages).get ⟨i, hi2⟩ =
        formatOne (messages.get ⟨i, hi⟩) := by
      simp [format_messages]
    rcases hshape with hm | hm <;> rw [hget, hm] <;> rfl

/-- Witness for C5: a two-message scalar list (one object-shaped, one
dict-shaped) passes through role and content unchanged. -/
theorem format_messages_scalar_passthrough_witness :
    (format_messages [Msg.obj "assistant" (Content.str "hi"),
        Msg.mdict "user" (Content.str "yo")]).length =
      ([Msg.obj "assistant" (Content.str "hi"),
        Msg.mdict "user" (Content.str "yo")] : List Msg).length ∧
    ∀ (i : Nat)
      (hi : i < ([Msg.obj "assistant" (Content.str "hi"),
        Msg.mdict "user" (Content.str "yo")] : List Msg).length)
      (hi2 : i < (format_messages [Msg.obj "assistant" (Content.str "hi"),
        Msg.mdict "user" (Content.str "yo")]).length)
      (r s : String),
      (([Msg.obj "assistant" (Content.str "hi"),
          Msg.mdict "user" (Content.str "yo")] : List Msg).get ⟨i, hi⟩ =
            Msg.obj r (Content.str s) ∨
        ([Msg.obj "assistant" (Content.str "hi"),
          Msg.mdict "user" (Content.str "yo")] : List Msg).get ⟨i, hi⟩ =
            Msg.mdict r (Content.str s)) →
      (format_messages [Msg.obj "assistant" (Content.str "hi"),
        Msg.mdict "user" (Content.str "yo")]).get ⟨i, hi2⟩ = ⟨r, Content.str s⟩ :=
  format_messages_scalar_passthrough
    [Msg.obj "assistant" (Content.str "hi"), Msg.mdict "user" (Content.str "yo")]
    (by
      intro m hm
      simp only [List.mem_cons, List.not_mem_nil, or_false] at hm
      rcases hm with rfl | rfl
      · exact Or.inl ⟨"assistant", "hi", rfl⟩
      · exact Or.inr ⟨"user", "yo", rfl⟩)

/-- Counterexample to C3 as stated: a dict-shaped message holding a single
text block is NOT collapsed to scalar string content — the dict branch of
`_format_messages_with_system` keeps the (normalized) block list. -/
theorem collapse_claim_counterexample :
    format_messages_with_system
        [Msg.mdict "user" (Content.blocks [Block.bdict [("type", "text"), ("text", "hi")]])]
        none =
      some [⟨"user", Content.blocks [Block.bdict [("type", "text"), ("text", "hi")]]⟩] ∧
    (⟨"user", Content.blocks [Block.bdict [("type", "text"), ("text", "hi")]]⟩ : OutMsg) ≠
      ⟨"user", Content.str "hi"⟩ :=
  ⟨rfl, by decide⟩

/-- C3 (amended): the single-text-block collapse applies to messages given
as objects exposing role/content attributes — a lone block normalizing to a
text block (with a text payload) collapses to scalar string content, and
two blocks are kept as a two-element normalized list, tagged `type: "text"`
when the blocks are text blocks — while a dict-shaped message always keeps
its normalized block list. -/
theorem collapse_only_for_object_messages :
    (∀ (r : String) (b : Block) (t : String),
        blockGet (normBlockObj b) "type" = some "text" →
        blockGet (normBlockObj b) "text" = some t →
        format_messages_with_system [Msg.obj r (Content.blocks [b])] none =
          some [⟨r, Content.str t⟩]) ∧
    (∀ (r : String) (b1 b2 : Block),
        blockGet (normBlockObj b1) "type" = some "text" →
        blockGet (normBlockObj b2) "type" = some "text" →
        format_messages_with_system [Msg.obj r (Content.blocks [b1, b2])] none =
          some [⟨r, Content.blocks [normBlockObj b1, normBlockObj b2]⟩] ∧
        ∀ nb ∈ [normBlockObj b1, normBlockObj b2], blockGet nb "type" = some "text") ∧
    (∀ (r : String) (bs : List Block),
        format_messages_with_system [Msg.mdict r (Content.blocks bs)] none =
          some [⟨r, Content.blocks (bs.map normBlockDict)⟩]) := by
  refine ⟨fun r b t h1 h2 => ?_, fun r b1 b2 h1 h2 => ⟨?_, ?_⟩, fun r bs => rfl⟩
  · simp [format_messages_with_system, format_messages_with_systemSt,
      formatLoopWS, formatOneWS, sysPart, h1, h2]
  · simp [format_messages_with_system, format_messages_with_systemSt,
      formatLoopWS, formatOneWS, sysPart]
  · intro nb hnb
    rcases List.mem_cons.mp hnb with rfl | hnb
    · exact h1
    · rcases List.mem_cons.mp hnb with rfl | hnb
      · exact h2
      · exact absurd hnb (List.not_mem_nil _)

/-- Witness for C3 (amended): a lone object-shaped text block collapses to
scalar content, and a dict message keeps its one-block list. -/
theorem collapse_only_for_object_messages_witness :
    format_messages_with_system
        [Msg.obj "user" (Content.blocks [Block.attrText "hi" "<obj>"])] none =
      some [⟨"user", Content.str "hi"⟩] :=
  collapse_only_for_object_messages.1 "user" (Block.attrText "hi" "<obj>") "hi"
    (by decide) (by decide)

/-- C6: a truthy system prompt is prepended as a synthetic system-role
message ahead of the formatted input; in particular the user message
`2+2?` with prompt `Be terse` yields exactly the two-entry request list. -/
theorem system_prompt_prepended (messages : List Msg) (sp : String) (h : sp ≠ "") :
    format_messages_with_systemSt messages (some sp) =
      (format_messages_with_systemSt messages none).map
        (fun p => (⟨"system", Content.str sp⟩ :: p.1, p.2)) ∧
    format_messages_with_system [Msg.mdict "user" (Content.str "2+2?")] (some "Be terse") =
      some [⟨"system", Content.str "Be terse"⟩, ⟨"user", Content.str "2+2?"⟩] := by
  constructor
  · cases hl : formatLoopWS messages with
    | none => simp [format_messages_with_systemSt, hl]
    | some p => simp [format_messages_with_systemSt, hl, sysPart, h]
  · rfl

/-- Witness for C6: prepending a concrete nonempty prompt to a concrete
one-message list. -/
theorem system_prompt_prepended_witness :
    format_messages_with_systemSt [Msg.other "x"] (some "s") =
      (format_messages_with_systemSt [Msg.other "x"] none).map
        (fun p => (⟨"system", Content.str "s"⟩ :: p.1, p.2)) :=
  (system_prompt_prepended [Msg.other "x"] "s" (by decide)).1

/-- C7: a message that is neither a dict nor an object exposing
role/content is coerced — on both formatting paths, without raising — to a
user-role message holding its string conversion. -/
theorem malformed_message_coerced (rep : String) :
    formatOne (Msg.other rep) = ⟨"user", Content.str rep⟩ ∧
    formatOneWS (Msg.other rep) = some (⟨"user", Content.str rep⟩, Msg.other rep) :=
  ⟨rfl, rfl⟩

/-- C8: `structured_output` returns exactly the single-key mapping
`{"response": <generate result>}`, and the supplied schema never affects
the output. -/
theorem structured_output_wraps_generate (messages : List Msg)
    (schema : List (String × String)) (system_prompt : Option String)
    (response : Response)
    (h : (format_messages_with_systemSt messages system_prompt).isSome) :
    structured_output messages schema system_prompt response =
      (generate messages response).map (fun t => [("response", t)]) ∧
    ∀ schema2 : List (String × String),
      structured_output messages schema system_prompt response =
        structured_output messages schema2 system_prompt response := by
  obtain ⟨p, hp⟩ := Option.isSome_iff_exists.mp h
  refine ⟨?_, fun schema2 => rfl⟩
  cases hg : generate messages response with
  | none => simp [structured_output, hp, hg]
  | some t => simp [structured_output, hp, hg]

/-- Witness for C8: a concrete call wraps the generated text `4` as
`{"response": "4"}` for an arbitrary schema. -/
theorem structured_output_wraps_generate_witness :
    structured_output [Msg.mdict "user" (Content.str "hi")] [("type", "object")]
        none ⟨[⟨⟨some "4"⟩⟩]⟩ =
      (generate [Msg.mdict "user" (Content.str "hi")] ⟨[⟨⟨some "4"⟩⟩]⟩).map
        (fun t => [("response", t)]) :=
  (structured_output_wraps_generate [Msg.mdict "user" (Content.str "hi")]
    [("type", "object")] none ⟨[⟨⟨some "4"⟩⟩]⟩ (by decide)).1

/-- C9: the dict-message branch is not side-effect-free: the caller's block
dict gains `type: "text"` in place when it held `text` without `type`, and
the message's content entry is replaced by the normalized block list, so
the caller's message list differs after the call. -/
theorem dict_message_mutated_in_place :
    (∀ (r : String) (bs : List Block),
        formatOneWS (Msg.mdict r (Content.blocks bs)) =
          some (⟨r, Content.blocks (bs.map normBlockDict)⟩,
            Msg.mdict r (Content.blocks (bs.map normBlockDict)))) ∧
    (∀ es : List (String × String),
        dictGet es "type" = none → (dictGet es "text").isSome →
        normBlockDict (Block.bdict es) = Block.bdict (es ++ [("type", "text")])) ∧
    (format_messages_with_systemSt
        [Msg.mdict "user" (Content.blocks [Block.bdict [("text", "hi")]])] none =
      some ([⟨"user", Content.blocks [Block.bdict [("text", "hi"), ("type", "text")]]⟩],
        [Msg.mdict "user" (Content.blocks [Block.bdict [("text", "hi"), ("type", "text")]])]) ∧
      Msg.mdict "user" (Content.blocks [Block.bdict [("text", "hi"), ("type", "text")]]) ≠
        Msg.mdict "user" (Content.blocks [Block.bdict [("text", "hi")]])) := by
  refine ⟨fun r bs => rfl, fun es h1 h2 => ?_, rfl, by decide⟩
  simp [normBlockDict, dictSetNew, h1, h2]

/-- Witness for C9: the concrete untagged block `{"text": "hi"}` gains
`type: "text"` at the end. -/
theorem dict_message_mutated_in_place_witness :
    normBlockDict (Block.bdict [("text", "hi")]) =
      Block.bdict [("text", "hi"), ("type", "text")] := by
  have h := dict_message_mutated_in_place.2.1 [("text", "hi")] (by decide) (by decide)
  simpa using h

end OpenAIClient
